import Mathlib

/-!
Verification of the scoring and trend-detection engine of `process_data.py`
(threads_auto_scraper).

The Python code is shallowly embedded in Lean:

* pandas DataFrames become lists of records; a derived column added by an
  enrichment stage becomes an `Option`-valued field that the stage sets;
* float arithmetic is modelled by exact arithmetic (`ℝ` where the code uses
  `exp`/`log`, `ℚ` elsewhere so definitions stay executable);
* external libraries (jieba segmentation, scikit-learn TF-IDF and k-means,
  NLTK sentiment) are not part of the repository: they enter as explicit
  function parameters of the embedded pipeline, exactly at the call sites
  the source uses them;
* Python's `str.lower` and (case-insensitive) substring containment are
  modelled by structurally recursive functions so that concrete runs can be
  evaluated by `decide`.
-/

/-- Python `str.lower()`: character-wise lowercasing
(structural, so the kernel can evaluate it). -/
def lowerStr (s : String) : String := ⟨s.data.map Char.toLower⟩

/-- Python `str.strip()`: drop whitespace from both ends
(structural, so the kernel can evaluate it). -/
def trimStr (s : String) : String :=
  ⟨((s.data.dropWhile Char.isWhitespace).reverse.dropWhile Char.isWhitespace).reverse⟩

/-- Does the character list start with `pat`? -/
def startsWithL : List Char → List Char → Bool
  | [], _ => true
  | _ :: _, [] => false
  | a :: as, b :: bs => a == b && startsWithL as bs

/-- Substring containment on character lists. -/
def hasSubstr (pat : List Char) : List Char → Bool
  | [] => pat.isEmpty
  | c :: rest => startsWithL pat (c :: rest) || hasSubstr pat rest

/-- Python `pat in s` (substring containment). -/
def containsSubstr (pat s : String) : Bool := hasSubstr pat.data s.data

/-- `df['content'].str.contains(keyword, case=False)`: the keywords produced
upstream consist of word characters only, on which pandas' regex search
coincides with case-insensitive substring containment. -/
def containsKeyword (kw content : String) : Bool :=
  containsSubstr (lowerStr kw) (lowerStr content)

/-! ## Keyword momentum (`_calculate_keyword_momentum`, lines 655-684)

A post enters the momentum computation only through its calendar date and its
content, so it is embedded as a day index (`timestamp.dt.date`) plus content.
-/

/-- A post as seen by the momentum computation: its calendar date
(as an integer day index) and its text. -/
structure MPost where
  day : Int
  content : String
deriving DecidableEq

/-- Lines 662-666: `recent_posts`, the posts whose calendar date lies in
`[end_date - days, end_date]` (both ends included) and whose content
matches the keyword case-insensitively. -/
def keywordWindowPosts (kw : String) (endDay : Int) (days : ℕ) (df : List MPost) :
    List MPost :=
  df.filter fun p =>
    decide (endDay - (days : Int) ≤ p.day) && decide (p.day ≤ endDay) &&
      containsKeyword kw p.content

/-- Line 672: `recent_posts.groupby(...dt.date).size()` - the distinct days
carrying data, in ascending order (pandas sorts group keys). -/
def distinctDaysSorted (posts : List MPost) : List Int :=
  ((posts.map MPost.day).dedup).insertionSort (· ≤ ·)

/-- Number of matching posts on day `d` (one group of the `groupby`). -/
def dayCount (posts : List MPost) (d : Int) : ℕ :=
  (posts.filter fun p => p.day == d).length

/-- Lines 655-684: `_calculate_keyword_momentum`.  Returns 0 when fewer than
2 matching posts or fewer than 2 distinct days of data lie in the window;
otherwise `(values[-1] - values[0]) / (len(values) - 1)` clamped to `≥ 0`,
where `values` are the daily counts in ascending day order. -/
def calculate_keyword_momentum (kw : String) (endDay : Int) (days : ℕ)
    (df : List MPost) : ℚ :=
  let recent := keywordWindowPosts kw endDay days df
  if recent.length < 2 then 0
  else
    let ds := distinctDaysSorted recent
    if ds.length < 2 then 0
    else
      max 0 (((dayCount recent (ds.getLast?.getD 0) : ℚ)
          - (dayCount recent (ds.head?.getD 0) : ℚ)) / ((ds.length : ℚ) - 1))

/-- Example batch from the spec: a keyword matching 2 posts per day on three
consecutive days (daily counts 2,2,2). -/
def exFlat : List MPost :=
  [⟨0, "AI a"⟩, ⟨0, "AI b"⟩, ⟨1, "AI c"⟩, ⟨1, "AI d"⟩, ⟨2, "AI e"⟩, ⟨2, "AI f"⟩]

/-- Example batch from the spec: daily counts 2,4,6 on three consecutive
days. -/
def exGrowth : List MPost :=
  [⟨0, "AI a"⟩, ⟨0, "AI b"⟩,
   ⟨1, "AI c"⟩, ⟨1, "AI d"⟩, ⟨1, "AI e"⟩, ⟨1, "AI f"⟩,
   ⟨2, "AI g"⟩, ⟨2, "AI h"⟩, ⟨2, "AI i"⟩, ⟨2, "AI j"⟩, ⟨2, "AI k"⟩, ⟨2, "AI l"⟩]

/-- At least two distinct days of data force at least two matching posts, so
the `len(recent_posts) < 2` guard never fires on its own. -/
lemma two_le_recent_of_two_le_days (posts : List MPost)
    (h : 2 ≤ (distinctDaysSorted posts).length) : 2 ≤ posts.length := by
  have h1 : (distinctDaysSorted posts).length = (posts.map MPost.day).dedup.length :=
    (List.perm_insertionSort _ _).length_eq
  have h2 : (posts.map MPost.day).dedup.length ≤ (posts.map MPost.day).length :=
    (List.dedup_sublist _).length_le
  have h3 := List.length_map posts MPost.day
  omega

/-- C2: `_calculate_keyword_momentum` returns 0 when fewer than 2 distinct
days of matching data lie in the lookback window; otherwise it returns
(count on the last data day − count on the first data day) divided by
(number of data days − 1), clamped to `≥ 0`; the result is non-negative for
every input; daily counts 2,2,2 give momentum 0 and daily counts 2,4,6 give
momentum 2. -/
theorem keyword_momentum_claim (kw : String) (endDay : Int) (days : ℕ)
    (df : List MPost) :
    0 ≤ calculate_keyword_momentum kw endDay days df
    ∧ ((distinctDaysSorted (keywordWindowPosts kw endDay days df)).length < 2 →
        calculate_keyword_momentum kw endDay days df = 0)
    ∧ (2 ≤ (distinctDaysSorted (keywordWindowPosts kw endDay days df)).length →
        calculate_keyword_momentum kw endDay days df =
          max 0 (((dayCount (keywordWindowPosts kw endDay days df)
              ((distinctDaysSorted (keywordWindowPosts kw endDay days df)).getLast?.getD 0) : ℚ)
            - (dayCount (keywordWindowPosts kw endDay days df)
              ((distinctDaysSorted (keywordWindowPosts kw endDay days df)).head?.getD 0) : ℚ))
          / (((distinctDaysSorted (keywordWindowPosts kw endDay days df)).length : ℚ) - 1)))
    ∧ calculate_keyword_momentum "AI" 2 3 exFlat = 0
    ∧ calculate_keyword_momentum "AI" 2 3 exGrowth = 2 := by
  refine ⟨?_, ?_, ?_, ?_, ?_⟩
  · simp only [calculate_keyword_momentum]
    split_ifs <;> simp [le_max_left]
  · intro h
    simp only [calculate_keyword_momentum]
    split_ifs <;> rfl
  · intro h
    have hr := two_le_recent_of_two_le_days _ h
    simp only [calculate_keyword_momentum]
    split_ifs with h1 h2
    · omega
    · omega
    · rfl
  · have h1 : keywordWindowPosts "AI" 2 3 exFlat = exFlat := by decide
    have h2 : distinctDaysSorted exFlat = [0, 1, 2] := by decide
    have h3 : dayCount exFlat 2 = 2 := by decide
    have h4 : dayCount exFlat 0 = 2 := by decide
    have h5 : exFlat.length = 6 := by decide
    simp only [calculate_keyword_momentum, h1, h2, h5]
    norm_num [h3, h4, max_def]
  · have h1 : keywordWindowPosts "AI" 2 3 exGrowth = exGrowth := by decide
    have h2 : distinctDaysSorted exGrowth = [0, 1, 2] := by decide
    have h3 : dayCount exGrowth 2 = 6 := by decide
    have h4 : dayCount exGrowth 0 = 2 := by decide
    have h5 : exGrowth.length = 12 := by decide
    simp only [calculate_keyword_momentum, h1, h2, h5]
    norm_num [h3, h4, max_def]

/-- Witness for C2: the 2,4,6 batch has two (indeed three) distinct data days
and the momentum formula evaluates there. -/
theorem keyword_momentum_claim_witness :
    2 ≤ (distinctDaysSorted (keywordWindowPosts "AI" 2 3 exGrowth)).length
    ∧ calculate_keyword_momentum "AI" 2 3 exGrowth =
        max 0 (((dayCount (keywordWindowPosts "AI" 2 3 exGrowth)
            ((distinctDaysSorted (keywordWindowPosts "AI" 2 3 exGrowth)).getLast?.getD 0) : ℚ)
          - (dayCount (keywordWindowPosts "AI" 2 3 exGrowth)
            ((distinctDaysSorted (keywordWindowPosts "AI" 2 3 exGrowth)).head?.getD 0) : ℚ))
        / (((distinctDaysSorted (keywordWindowPosts "AI" 2 3 exGrowth)).length : ℚ) - 1)) :=
  ⟨by decide, (keyword_momentum_claim "AI" 2 3 exGrowth).2.2.1 (by decide)⟩

/-- C3: the momentum computation only ever reads posts whose calendar date
lies in the inclusive window `[end_date - days, end_date]`: restricting the
input batch to that window does not change the result, so posts outside the
window contribute nothing. -/
theorem momentum_window_only (kw : String) (endDay : Int) (days : ℕ)
    (df : List MPost) :
    calculate_keyword_momentum kw endDay days
        (df.filter fun p =>
          decide (endDay - (days : Int) ≤ p.day) && decide (p.day ≤ endDay))
      = calculate_keyword_momentum kw endDay days df := by
  have hwin : keywordWindowPosts kw endDay days
      (df.filter fun p =>
        decide (endDay - (days : Int) ≤ p.day) && decide (p.day ≤ endDay))
      = keywordWindowPosts kw endDay days df := by
    unfold keywordWindowPosts
    rw [List.filter_filter]
    apply List.filter_congr
    intro p _
    cases h1 : decide (endDay - (days : Int) ≤ p.day) <;>
      cases h2 : decide (p.day ≤ endDay) <;>
        cases h3 : containsKeyword kw p.content <;> simp [h1, h2, h3]
  simp only [calculate_keyword_momentum, hwin]

/-! ## Metric Calculator (`calculate_heat_density` .. `calculate_viral_potential`)

A DataFrame row is a record; the raw columns produced by `fetch_raw_posts`
are plain fields, and every derived column is an `Option`-valued field that
starts out `none` and is set (`some`) by the stage that assigns it, mirroring
pandas column assignment.  Timestamps and the current time are measured in
hours on one absolute axis, so `(current_time - timestamp)` in hours is plain
subtraction.  Float arithmetic is modelled by `ℝ`.
-/

structure Row where
  post_id : String
  username : String
  content : String
  timestamp : ℝ
  likes : ℕ
  replies : ℕ
  reposts : ℕ
  hours_since_post : Option ℝ := none
  time_decay : Option ℝ := none
  base_heat : Option ℝ := none
  content_length : Option ℕ := none
  length_factor : Option ℝ := none
  heat_density : Option ℝ := none
  freshness_score : Option ℝ := none
  user_avg_interactions : Option ℝ := none
  engagement_rate : Option ℝ := none
  repost_ratio : Option ℝ := none
  interaction_velocity : Option ℝ := none
  has_hashtag : Option ℕ := none
  has_mention : Option ℕ := none
  has_url : Option ℕ := none
  viral_potential : Option ℝ := none

/-- Line 179: `total_interactions = likes + replies + reposts`
(set by `fetch_raw_posts` before any calculator stage runs). -/
def Row.total_interactions (r : Row) : ℕ := r.likes + r.replies + r.reposts

/-- Line 208: `np.exp(-decay_rate * hours_since_post / 24)` with
`decay_rate = 0.1`. -/
noncomputable def timeDecay (h : ℝ) : ℝ := Real.exp (-(0.1 * h) / 24)

/-- Lines 211-215: `likes*1.0 + replies*2.0 + reposts*1.5`. -/
noncomputable def baseHeat (r : Row) : ℝ :=
  (r.likes : ℝ) * 1.0 + (r.replies : ℝ) * 2.0 + (r.reposts : ℝ) * 1.5

/-- Line 219: `np.log1p(content_length) / 10`. -/
noncomputable def lengthFactor (n : ℕ) : ℝ := Real.log (1 + (n : ℝ)) / 10

/-- Lines 222-224: the un-normalized heat density of one post. -/
noncomputable def heatRawScore (now : ℝ) (r : Row) : ℝ :=
  baseHeat r * timeDecay (now - r.timestamp) * (1 + lengthFactor r.content.length)

/-- Lines 202-224: the per-row column assignments of `calculate_heat_density`
before batch normalization. -/
noncomputable def heatAssign (now : ℝ) (r : Row) : Row :=
  { r with
    hours_since_post := some (now - r.timestamp),
    time_decay := some (timeDecay (now - r.timestamp)),
    base_heat := some (baseHeat r),
    content_length := some r.content.length,
    length_factor := some (lengthFactor r.content.length),
    heat_density := some (heatRawScore now r) }

/-- Lines 188-231: `calculate_heat_density`: empty batches are returned
unchanged; the raw heat column is divided by its batch maximum and scaled to
100 only when that maximum is `> 0`. -/
noncomputable def calculate_heat_density (now : ℝ) (df : List Row) : List Row :=
  if df.isEmpty then df
  else
    let df1 := df.map (heatAssign now)
    let m : ℝ := (df1.map fun r => r.heat_density.getD 0).foldr max 0
    if 0 < m then
      df1.map (fun r => { r with heat_density := some (r.heat_density.getD 0 / m * 100) })
    else df1

/-- Lines 254-258: `exp(-hours_since_post/24)` clipped to `[0,1]`
(pandas `clip(0, 1)` is `min 1 (max 0 ·)`). -/
noncomputable def freshnessScore (h : ℝ) : ℝ := min 1 (max 0 (Real.exp (-h / 24)))

/-- Lines 237-260: `calculate_freshness_score`; note that it re-assigns the
`hours_since_post` column from its own current time (line 252). -/
noncomputable def calculate_freshness_score (now : ℝ) (df : List Row) : List Row :=
  if df.isEmpty then df
  else
    df.map fun r =>
      { r with
        hours_since_post := some (now - r.timestamp),
        freshness_score := some (freshnessScore (now - r.timestamp)) }

/-- Line 281: `df.groupby('username')['total_interactions'].mean()` looked up
for one username. -/
noncomputable def userAvgInteractions (df : List Row) (u : String) : ℝ :=
  ((df.filter fun r => r.username == u).map fun r => (r.total_interactions : ℝ)).sum
    / ((df.filter fun r => r.username == u).length : ℝ)

/-- Lines 266-293: `calculate_engagement_rate`.  In pandas,
`total_interactions / user_avg` is `NaN` (`0/0`) or `+inf` (`pos/0`) exactly
when the user mean is 0, and lines 285-288 replace both by `1.0`; line 291
then applies `np.log1p`. -/
noncomputable def calculate_engagement_rate (df : List Row) : List Row :=
  if df.isEmpty then df
  else
    df.map fun r =>
      { r with
        user_avg_interactions := some (userAvgInteractions df r.username),
        engagement_rate := some (Real.log (1 +
          if userAvgInteractions df r.username = 0 then 1
          else (r.total_interactions : ℝ) / userAvgInteractions df r.username)) }

/-- Lines 313-331: the per-row column assignments of
`calculate_viral_potential` before batch normalization. -/
noncomputable def viralAssign (r : Row) : Row :=
  { r with
    repost_ratio := some ((r.reposts : ℝ) / ((r.total_interactions : ℝ) + 1)),
    interaction_velocity :=
      some ((r.total_interactions : ℝ) / (r.hours_since_post.getD 0 + 1)),
    has_hashtag := some (if r.content.contains '#' then 1 else 0),
    has_mention := some (if r.content.contains '@' then 1 else 0),
    has_url := some (if containsSubstr "http" r.content then 1 else 0),
    viral_potential := some (
      (r.reposts : ℝ) / ((r.total_interactions : ℝ) + 1) * 0.4
      + Real.log (1 + (r.total_interactions : ℝ) / (r.hours_since_post.getD 0 + 1)) * 0.3
      + (((if r.content.contains '#' then 1 else 0)
          + (if r.content.contains '@' then 1 else 0)
          + (if containsSubstr "http" r.content then 1 else 0) : ℕ) : ℝ) * 0.1
      + r.freshness_score.getD 0 * 0.2) }

/-- Lines 299-341: `calculate_viral_potential`, batch-normalized by the
column maximum only when it is `> 0`. -/
noncomputable def calculate_viral_potential (df : List Row) : List Row :=
  if df.isEmpty then df
  else
    let df1 := df.map viralAssign
    let m : ℝ := (df1.map fun r => r.viral_potential.getD 0).foldr max 0
    if 0 < m then
      df1.map (fun r => { r with viral_potential := some (r.viral_potential.getD 0 / m) })
    else df1

/-! ### Facts about the batch maximum (`Series.max` over a non-negative column) -/

lemma le_foldrMax (l : List ℝ) (x : ℝ) (hx : x ∈ l) : x ≤ l.foldr max 0 := by
  induction l with
  | nil => simp at hx
  | cons a t ih =>
    rcases List.mem_cons.mp hx with rfl | hx
    · exact le_max_left _ _
    · exact (ih hx).trans (le_max_right a _)

lemma foldrMax_nonneg (l : List ℝ) : 0 ≤ l.foldr max 0 := by
  induction l with
  | nil => exact le_refl 0
  | cons a t ih => exact ih.trans (le_max_right a _)

lemma foldrMax_mem (l : List ℝ) : l.foldr max 0 = 0 ∨ l.foldr max 0 ∈ l := by
  induction l with
  | nil => exact Or.inl rfl
  | cons a t ih =>
    simp only [List.foldr_cons]
    rcases le_total a (t.foldr max 0) with h | h
    · rw [max_eq_right h]
      rcases ih with h0 | hmem
      · exact Or.inl h0
      · exact Or.inr (List.mem_cons_of_mem a hmem)
    · rw [max_eq_left h]
      exact Or.inr (List.mem_cons_self a t)

lemma foldrMax_eq_zero (l : List ℝ) (h : ∀ x ∈ l, x = 0) : l.foldr max 0 = 0 := by
  induction l with
  | nil => rfl
  | cons a t ih =>
    simp only [List.foldr_cons]
    rw [h a (List.mem_cons_self a t), ih fun x hx => h x (List.mem_cons_of_mem a hx)]
    exact max_self 0

/-! ### Sign facts about the raw heat score -/

lemma timeDecay_pos (h : ℝ) : 0 < timeDecay h := Real.exp_pos _

lemma baseHeat_nonneg (r : Row) : 0 ≤ baseHeat r := by
  unfold baseHeat
  positivity

lemma one_add_lengthFactor_pos (n : ℕ) : 0 < 1 + lengthFactor n := by
  have h : 0 ≤ lengthFactor n := by
    unfold lengthFactor
    apply div_nonneg _ (by norm_num)
    apply Real.log_nonneg
    have hn : (0 : ℝ) ≤ (n : ℝ) := Nat.cast_nonneg n
    linarith
  linarith

lemma heatRawScore_nonneg (now : ℝ) (r : Row) : 0 ≤ heatRawScore now r :=
  mul_nonneg (mul_nonneg (baseHeat_nonneg r) (timeDecay_pos _).le)
    (one_add_lengthFactor_pos _).le

lemma heatRawScore_pos (now : ℝ) (r : Row) (h : 0 < r.total_interactions) :
    0 < heatRawScore now r := by
  have hb : 0 < baseHeat r := by
    have hsum : 0 < r.likes + r.replies + r.reposts := h
    have hc : (0 : ℝ) < (r.likes : ℝ) + (r.replies : ℝ) + (r.reposts : ℝ) := by
      exact_mod_cast hsum
    have h1 : (0 : ℝ) ≤ (r.replies : ℝ) := Nat.cast_nonneg _
    have h2 : (0 : ℝ) ≤ (r.reposts : ℝ) := Nat.cast_nonneg _
    unfold baseHeat
    nlinarith
  exact mul_pos (mul_pos hb (timeDecay_pos _)) (one_add_lengthFactor_pos _)

lemma heatRawScore_eq_zero (now : ℝ) (r : Row) (h : r.total_interactions = 0) :
    heatRawScore now r = 0 := by
  have hsum : r.likes + r.replies + r.reposts = 0 := h
  have hl : r.likes = 0 := by omega
  have hrep : r.replies = 0 := by omega
  have hrp : r.reposts = 0 := by omega
  unfold heatRawScore baseHeat
  rw [hl, hrep, hrp]
  push_cast
  ring

/-- The raw-heat column of the mapped batch is the list of raw scores. -/
lemma heatCol (now : ℝ) (df : List Row) :
    (df.map (heatAssign now)).map (fun r => r.heat_density.getD 0)
      = df.map (heatRawScore now) := by
  rw [List.map_map]
  rfl

/-- C1: on a non-empty batch every `heat_density` produced by
`calculate_heat_density` lies in `[0, 100]`; if at least one post has
positive interactions the batch maximum is positive, normalization fires and
some post gets exactly 100; if every post has zero interactions every
`heat_density` is 0. -/
theorem heat_density_claim (now : ℝ) (df : List Row) (hne : df ≠ []) :
    (∀ r ∈ calculate_heat_density now df,
        ∃ x, r.heat_density = some x ∧ 0 ≤ x ∧ x ≤ 100)
    ∧ ((∃ r ∈ df, 0 < r.total_interactions) →
        ∃ r ∈ calculate_heat_density now df, r.heat_density = some 100)
    ∧ ((∀ r ∈ df, r.total_interactions = 0) →
        ∀ r ∈ calculate_heat_density now df, r.heat_density = some 0) := by
  have hie : df.isEmpty = false := by
    cases df with
    | nil => exact absurd rfl hne
    | cons a t => rfl
  unfold calculate_heat_density
  rw [hie]
  simp only [Bool.false_eq_true, if_false]
  rw [heatCol]
  set M := (df.map (heatRawScore now)).foldr max 0 with hM
  by_cases hMpos : 0 < M
  · rw [if_pos hMpos]
    refine ⟨?_, ?_, ?_⟩
    · intro r' hr'
      obtain ⟨r1, hr1, rfl⟩ := List.mem_map.mp hr'
      obtain ⟨r, hr, rfl⟩ := List.mem_map.mp hr1
      refine ⟨heatRawScore now r / M * 100, rfl, ?_, ?_⟩
      · have := heatRawScore_nonneg now r
        positivity
      · have hle : heatRawScore now r ≤ M :=
          le_foldrMax _ _ (List.mem_map_of_mem (heatRawScore now) hr)
        have hdiv : heatRawScore now r / M ≤ 1 :=
          (div_le_one hMpos).mpr hle
        nlinarith
    · intro _
      rcases foldrMax_mem (df.map (heatRawScore now)) with h0 | hmem
      · exact absurd (hM.trans h0) hMpos.ne'
      · obtain ⟨r, hr, hrM⟩ := List.mem_map.mp hmem
        refine ⟨_, List.mem_map_of_mem _ (List.mem_map_of_mem (heatAssign now) hr), ?_⟩
        show some (heatRawScore now r / M * 100) = some 100
        rw [hrM, div_self hMpos.ne']
        norm_num
    · intro hz
      exfalso
      have : M = 0 := by
        rw [hM]
        apply foldrMax_eq_zero
        intro x hx
        obtain ⟨r, hr, rfl⟩ := List.mem_map.mp hx
        exact heatRawScore_eq_zero now r (hz r hr)
      exact hMpos.ne' this
  · rw [if_neg hMpos]
    have hM0 : M = 0 := le_antisymm (not_lt.mp hMpos) (foldrMax_nonneg _)
    refine ⟨?_, ?_, ?_⟩
    · intro r' hr'
      obtain ⟨r, hr, rfl⟩ := List.mem_map.mp hr'
      refine ⟨heatRawScore now r, rfl, heatRawScore_nonneg now r, ?_⟩
      have hle : heatRawScore now r ≤ M :=
        le_foldrMax _ _ (List.mem_map_of_mem (heatRawScore now) hr)
      rw [hM0] at hle
      linarith
    · intro ⟨r, hr, hpos⟩
      exfalso
      have hle : heatRawScore now r ≤ M :=
        le_foldrMax _ _ (List.mem_map_of_mem (heatRawScore now) hr)
      have := heatRawScore_pos now r hpos
      exact hMpos (lt_of_lt_of_le this hle)
    · intro hz r' hr'
      obtain ⟨r, hr, rfl⟩ := List.mem_map.mp hr'
      show some (heatRawScore now r) = some 0
      rw [heatRawScore_eq_zero now r (hz r hr)]

/-- A concrete single-post batch: one fresh post with one like. -/
def p1 : Row :=
  { post_id := "p1", username := "u", content := "", timestamp := 0,
    likes := 1, replies := 0, reposts := 0 }

/-- Witness for C1 at the batch `[p1]`: it is non-empty, `p1` has positive
interactions, and some post of the enriched batch scores exactly 100. -/
theorem heat_density_claim_witness :
    ([p1] : List Row) ≠ []
    ∧ ∃ r ∈ calculate_heat_density 0 [p1], r.heat_density = some 100 :=
  ⟨by simp,
    (heat_density_claim 0 [p1] (by simp)).2.1
      ⟨p1, List.mem_singleton_self p1, by norm_num [Row.total_interactions, p1]⟩⟩

/-- C7: `calculate_freshness_score` assigns exactly
`clip(exp(-hours_since_post/24), 0, 1)` to every post, the score lies in
`[0,1]`, and it is monotonically non-increasing in `hours_since_post`. -/
theorem freshness_claim (now h1 h2 : ℝ) (df : List Row) (hle : h1 ≤ h2) :
    ((calculate_freshness_score now df).map (fun r => r.freshness_score)
        = df.map fun r => some (freshnessScore (now - r.timestamp)))
    ∧ (0 ≤ freshnessScore h1 ∧ freshnessScore h1 ≤ 1)
    ∧ freshnessScore h2 ≤ freshnessScore h1 := by
  refine ⟨?_, ⟨?_, ?_⟩, ?_⟩
  · cases df with
    | nil => rfl
    | cons a t =>
      unfold calculate_freshness_score
      simp only [List.isEmpty_cons, Bool.false_eq_true, if_false]
      rw [List.map_map]
      rfl
  · exact le_min zero_le_one (le_max_left 0 _)
  · exact min_le_left _ _
  · unfold freshnessScore
    have he : Real.exp (-h2 / 24) ≤ Real.exp (-h1 / 24) :=
      Real.exp_le_exp.mpr (by linarith)
    exact min_le_min le_rfl (max_le_max le_rfl he)

/-- Witness for C7 at `h1 = 0 ≤ h2 = 1` and the singleton batch `[p1]`. -/
theorem freshness_claim_witness :
    ((0 : ℝ) ≤ 1)
    ∧ ((calculate_freshness_score 0 [p1]).map (fun r => r.freshness_score)
        = [p1].map fun r => some (freshnessScore (0 - r.timestamp)))
    ∧ freshnessScore 1 ≤ freshnessScore 0 :=
  ⟨zero_le_one, (freshness_claim 0 0 1 [p1] zero_le_one).1,
    (freshness_claim 0 0 1 [p1] zero_le_one).2.2⟩

/-- C10: a zero-interaction post by an author whose posts in the batch all
have zero interactions gets `engagement_rate = log 2`: the user mean is 0, so
the pandas ratio is `NaN`, is replaced by `1.0`, and `log1p` gives `log 2`. -/
theorem engagement_zero_user_claim (df : List Row) (i : ℕ) (hi : i < df.length)
    (hti : df[i].total_interactions = 0)
    (hall : ∀ q ∈ df, q.username = df[i].username → q.total_interactions = 0) :
    ∃ r, (calculate_engagement_rate df)[i]? = some r
      ∧ r.engagement_rate = some (Real.log 2) := by
  cases df with
  | nil => simp at hi
  | cons a t =>
    have havg : userAvgInteractions (a :: t) ((a :: t)[i]).username = 0 := by
      unfold userAvgInteractions
      have hzero : ∀ x ∈ ((a :: t).filter fun r =>
          r.username == ((a :: t)[i]).username).map
            (fun r => (r.total_interactions : ℝ)), x = 0 := by
        intro x hx
        obtain ⟨q, hq, rfl⟩ := List.mem_map.mp hx
        have hqf := List.mem_filter.mp hq
        have hqu : q.username = ((a :: t)[i]).username := by
          simpa using hqf.2
        rw [hall q hqf.1 hqu]
        exact Nat.cast_zero
      rw [List.sum_eq_zero hzero, zero_div]
    refine ⟨{ (a :: t)[i] with
        user_avg_interactions :=
          some (userAvgInteractions (a :: t) ((a :: t)[i]).username),
        engagement_rate := some (Real.log (1 +
          if userAvgInteractions (a :: t) ((a :: t)[i]).username = 0 then 1
          else (((a :: t)[i]).total_interactions : ℝ)
            / userAvgInteractions (a :: t) ((a :: t)[i]).username)) }, ?_, ?_⟩
    · unfold calculate_engagement_rate
      simp only [List.isEmpty_cons, Bool.false_eq_true, if_false]
      rw [List.getElem?_map, List.getElem?_eq_getElem hi]
      rfl
    · show some (Real.log (1 +
        if userAvgInteractions (a :: t) ((a :: t)[i]).username = 0 then 1
        else (((a :: t)[i]).total_interactions : ℝ)
          / userAvgInteractions (a :: t) ((a :: t)[i]).username)) = some (Real.log 2)
      rw [havg, if_pos rfl]
      norm_num

/-- A concrete post with zero interactions (for the C10 witness). -/
def p0 : Row :=
  { post_id := "p0", username := "z", content := "", timestamp := 0,
    likes := 0, replies := 0, reposts := 0 }

/-- Witness for C10 at the singleton batch `[p0]`. -/
theorem engagement_zero_user_claim_witness :
    (0 < ([p0] : List Row).length)
    ∧ ∃ r, (calculate_engagement_rate [p0])[0]? = some r
        ∧ r.engagement_rate = some (Real.log 2) :=
  ⟨by decide,
    engagement_zero_user_claim [p0] 0 (by decide) rfl
      (fun q hq _ => by rw [List.mem_singleton.mp hq]; rfl)⟩

/-! ### Frame analysis of the enrichment stages (C9)

Each stage is a (guarded) map over the batch, so preservation of a set of
columns is preservation of a projection (`view`) of every row.
-/

/-- The raw columns owned by the ingestion side. -/
def Row.rawView (r : Row) : String × String × String × ℝ × ℕ × ℕ × ℕ :=
  (r.post_id, r.username, r.content, r.timestamp, r.likes, r.replies, r.reposts)

/-- The columns written by `calculate_heat_density` other than
`hours_since_post`. -/
def Row.heatView (r : Row) :
    Option ℝ × Option ℝ × Option ℕ × Option ℝ × Option ℝ :=
  (r.time_decay, r.base_heat, r.content_length, r.length_factor, r.heat_density)

/-- Every column written by the heat and freshness stages. -/
def Row.preEngageView (r : Row) :
    Option ℝ × Option ℝ × Option ℝ × Option ℕ × Option ℝ × Option ℝ × Option ℝ :=
  (r.hours_since_post, r.time_decay, r.base_heat, r.content_length,
    r.length_factor, r.heat_density, r.freshness_score)

/-- Every column written by the heat, freshness and engagement stages. -/
def Row.preViralView (r : Row) :
    (Option ℝ × Option ℝ × Option ℝ × Option ℕ × Option ℝ × Option ℝ × Option ℝ)
      × Option ℝ × Option ℝ :=
  (r.preEngageView, r.user_avg_interactions, r.engagement_rate)

lemma map_view_eq {β : Type} (g : Row → Row) (view : Row → β)
    (hg : ∀ r, view (g r) = view r) (l : List Row) :
    (l.map g).map view = l.map view := by
  rw [List.map_map]
  exact List.map_congr_left fun a _ => hg a

lemma guardedMap_view {β : Type} (f : Row → Row) (view : Row → β)
    (hf : ∀ r, view (f r) = view r) (df : List Row) :
    (if df.isEmpty then df else df.map f).map view = df.map view := by
  cases df with
  | nil => rfl
  | cons a t =>
    simp only [List.isEmpty_cons, Bool.false_eq_true, if_false]
    exact map_view_eq f view hf (a :: t)

lemma heat_view_eq {β : Type} (view : Row → β)
    (h1 : ∀ now r, view (heatAssign now r) = view r)
    (h2 : ∀ (x : ℝ) r, view { r with heat_density := some x } = view r)
    (now : ℝ) (df : List Row) :
    (calculate_heat_density now df).map view = df.map view := by
  cases df with
  | nil => rfl
  | cons a t =>
    unfold calculate_heat_density
    simp only [List.isEmpty_cons, Bool.false_eq_true, if_false]
    split_ifs with hm
    · rw [map_view_eq _ view (fun r => h2 _ r), map_view_eq _ view (h1 now)]
    · rw [map_view_eq _ view (h1 now)]

lemma viral_view_eq {β : Type} (view : Row → β)
    (h1 : ∀ r, view (viralAssign r) = view r)
    (h2 : ∀ (x : ℝ) r, view { r with viral_potential := some x } = view r)
    (df : List Row) :
    (calculate_viral_potential df).map view = df.map view := by
  cases df with
  | nil => rfl
  | cons a t =>
    unfold calculate_viral_potential
    simp only [List.isEmpty_cons, Bool.false_eq_true, if_false]
    split_ifs with hm
    · rw [map_view_eq _ view (fun r => h2 _ r), map_view_eq _ view h1]
    · rw [map_view_eq _ view h1]

/-- The `hours_since_post` column written by `calculate_heat_density`. -/
lemma heat_hours (now : ℝ) (df : List Row) :
    (calculate_heat_density now df).map (fun r => r.hours_since_post)
      = df.map fun r => some (now - r.timestamp) := by
  cases df with
  | nil => rfl
  | cons a t =>
    unfold calculate_heat_density
    simp only [List.isEmpty_cons, Bool.false_eq_true, if_false]
    split_ifs with hm
    · rw [List.map_map, List.map_map]
      rfl
    · rw [List.map_map]
      rfl

/-- The `hours_since_post` column written by `calculate_freshness_score`. -/
lemma fresh_hours (now : ℝ) (df : List Row) :
    (calculate_freshness_score now df).map (fun r => r.hours_since_post)
      = df.map fun r => some (now - r.timestamp) := by
  cases df with
  | nil => rfl
  | cons a t =>
    unfold calculate_freshness_score
    simp only [List.isEmpty_cons, Bool.false_eq_true, if_false]
    rw [List.map_map]
    rfl

/-- After heat enrichment at time `n1`, the freshness stage run at time `n2`
rewrites `hours_since_post` from its own clock `n2`. -/
lemma fresh_after_heat_hours (n1 n2 : ℝ) (df : List Row) :
    (calculate_freshness_score n2 (calculate_heat_density n1 df)).map
        (fun r => r.hours_since_post)
      = df.map fun r => some (n2 - r.timestamp) := by
  rw [fresh_hours]
  exact heat_view_eq (fun r => some (n2 - r.timestamp))
    (fun _ _ => rfl) (fun _ _ => rfl) n1 df

/-- C9 (amended): every calculator stage preserves all raw post fields, and
each stage preserves the score columns written by earlier stages, with the
single exception that `calculate_freshness_score` re-assigns the
`hours_since_post` column from its own current time; when it runs with the
same reference time as the heat stage the re-assigned value coincides, so
the column is unchanged. -/
theorem enrichment_append_only_claim (now now2 : ℝ) (df : List Row) :
    ((calculate_heat_density now df).map Row.rawView = df.map Row.rawView)
    ∧ ((calculate_freshness_score now df).map Row.rawView = df.map Row.rawView)
    ∧ ((calculate_engagement_rate df).map Row.rawView = df.map Row.rawView)
    ∧ ((calculate_viral_potential df).map Row.rawView = df.map Row.rawView)
    ∧ ((calculate_freshness_score now2 df).map Row.heatView = df.map Row.heatView)
    ∧ ((calculate_engagement_rate df).map Row.preEngageView
        = df.map Row.preEngageView)
    ∧ ((calculate_viral_potential df).map Row.preViralView
        = df.map Row.preViralView)
    ∧ ((calculate_freshness_score now (calculate_heat_density now df)).map
          (fun r => r.hours_since_post)
        = (calculate_heat_density now df).map fun r => r.hours_since_post) := by
  refine ⟨?_, ?_, ?_, ?_, ?_, ?_, ?_, ?_⟩
  · exact heat_view_eq Row.rawView (fun _ _ => rfl) (fun _ _ => rfl) now df
  · unfold calculate_freshness_score
    apply guardedMap_view
    intro r
    rfl
  · unfold calculate_engagement_rate
    apply guardedMap_view
    intro r
    rfl
  · exact viral_view_eq Row.rawView (fun _ => rfl) (fun _ _ => rfl) df
  · unfold calculate_freshness_score
    apply guardedMap_view
    intro r
    rfl
  · unfold calculate_engagement_rate
    apply guardedMap_view
    intro r
    rfl
  · exact viral_view_eq Row.preViralView (fun _ => rfl) (fun _ _ => rfl) df
  · rw [fresh_after_heat_hours, heat_hours]

/-- Counterexample to C9 as stated: `calculate_freshness_score` does not
leave the earlier-derived `hours_since_post` column unchanged.  The heat
stage runs at time 0 on the post `p1` (posted at time 0) and records
`hours_since_post = 0`; the freshness stage then runs at time 24 and
overwrites it with 24. -/
theorem enrichment_hours_overwritten :
    ¬ ((calculate_freshness_score 24 (calculate_heat_density 0 [p1])).map
          (fun r => r.hours_since_post)
        = (calculate_heat_density 0 [p1]).map fun r => r.hours_since_post) := by
  rw [fresh_after_heat_hours, heat_hours]
  norm_num [p1]

/-! ## Topic clustering (`perform_topic_clustering`, lines 406-586)

The clusterer consumes the enriched batch through the columns `content`,
`total_interactions`, `heat_density`, `freshness_score` and `timestamp`
(in hours), embedded here over `ℚ` so that the pipeline stays executable.
-/

structure CPost where
  content : String
  total_interactions : ℕ
  heat_density : ℚ
  freshness_score : ℚ
  timestamp : ℚ
deriving DecidableEq, Inhabited

/-- Ordering of posts by timestamp (`sort_values('timestamp')`). -/
def timeLe (a b : CPost) : Prop := a.timestamp ≤ b.timestamp

instance : DecidableRel timeLe :=
  fun a b => inferInstanceAs (Decidable (a.timestamp ≤ b.timestamp))

instance : IsTotal CPost timeLe := ⟨fun a b => le_total a.timestamp b.timestamp⟩

instance : IsTrans CPost timeLe := ⟨fun _ _ _ hab hbc => le_trans hab hbc⟩

/-- Line 565: `posts_sorted = cluster_posts.sort_values('timestamp')`. -/
def sortedByTime (posts : List CPost) : List CPost := posts.insertionSort timeLe

/-- Line 571: time span in hours between the last and the first post of the
time-sorted cluster (`iloc[-1] - iloc[0]`). -/
def timeSpanHours (posts : List CPost) : ℚ :=
  ((sortedByTime posts).getLast?.getD default).timestamp
    - ((sortedByTime posts).head?.getD default).timestamp

/-- Lines 561-586: `_calculate_trending_score`. -/
def calculate_trending_score (posts : List CPost) : ℚ :=
  if (sortedByTime posts).length < 2 then 0
  else if timeSpanHours posts ≤ 0 then 0
  else
    min (((sortedByTime posts).map fun p => (p.total_interactions : ℚ)).sum
        / timeSpanHours posts
      * (((sortedByTime posts).map CPost.freshness_score).sum
        / ((sortedByTime posts).length : ℚ)) / 100) 1

lemma sorted_head_le (l : List CPost) (hs : List.Sorted timeLe l)
    (p : CPost) (hp : p ∈ l) :
    (l.head?.getD default).timestamp ≤ p.timestamp := by
  cases l with
  | nil => simp at hp
  | cons a t =>
    rcases List.mem_cons.mp hp with rfl | hp2
    · exact le_refl _
    · exact List.rel_of_sorted_cons hs p hp2

lemma sorted_le_getLast (l : List CPost) (hs : List.Sorted timeLe l) :
    ∀ p ∈ l, p.timestamp ≤ (l.getLast?.getD default).timestamp := by
  induction l with
  | nil => intro p hp; simp at hp
  | cons a t ih =>
    intro p hp
    cases t with
    | nil =>
      rw [List.mem_singleton.mp hp]
      simp
    | cons b t2 =>
      have hs2 : List.Sorted timeLe (b :: t2) := hs.of_cons
      have hl : (a :: b :: t2).getLast? = (b :: t2).getLast? :=
        List.getLast?_cons_cons
      rcases List.mem_cons.mp hp with rfl | hp2
      · have hab : timeLe p b := List.rel_of_sorted_cons hs b (List.mem_cons_self b t2)
        rw [hl]
        exact le_trans hab (ih hs2 b (List.mem_cons_self b t2))
      · rw [hl]
        exact ih hs2 p hp2

lemma head_getD_mem (l : List CPost) (h : l ≠ []) : l.head?.getD default ∈ l := by
  cases l with
  | nil => exact absurd rfl h
  | cons a t => exact List.mem_cons_self a t

lemma getLast_getD_mem (l : List CPost) (h : l ≠ []) : l.getLast?.getD default ∈ l := by
  rw [List.getLast?_eq_getLast l h]
  exact List.getLast_mem h

/-- C6: `_calculate_trending_score` returns 0 for clusters with fewer than 2
posts or a non-positive timestamp span, and otherwise returns
`min(sum(total_interactions)/time_span * mean(freshness_score) / 100, 1)`,
which lies in `[0,1]` (the span being the difference between the largest and
the smallest timestamp of the cluster). -/
theorem trending_score_claim (posts : List CPost)
    (hf : ∀ p ∈ posts, 0 ≤ p.freshness_score) :
    (posts.length < 2 → calculate_trending_score posts = 0)
    ∧ (timeSpanHours posts ≤ 0 → calculate_trending_score posts = 0)
    ∧ (2 ≤ posts.length → 0 < timeSpanHours posts →
        calculate_trending_score posts =
          min ((posts.map fun p => (p.total_interactions : ℚ)).sum
              / timeSpanHours posts
            * ((posts.map CPost.freshness_score).sum / (posts.length : ℚ)) / 100) 1
        ∧ 0 ≤ calculate_trending_score posts ∧ calculate_trending_score posts ≤ 1)
    ∧ (posts ≠ [] → ∃ pmin ∈ posts, ∃ pmax ∈ posts,
        timeSpanHours posts = pmax.timestamp - pmin.timestamp
        ∧ ∀ p ∈ posts, pmin.timestamp ≤ p.timestamp ∧ p.timestamp ≤ pmax.timestamp) := by
  have hperm : (sortedByTime posts).Perm posts := List.perm_insertionSort timeLe posts
  have hlen : (sortedByTime posts).length = posts.length := hperm.length_eq
  have hsorted : List.Sorted timeLe (sortedByTime posts) :=
    List.sorted_insertionSort timeLe posts
  have hsum1 : ((sortedByTime posts).map fun p => (p.total_interactions : ℚ)).sum
      = (posts.map fun p => (p.total_interactions : ℚ)).sum :=
    (hperm.map _).sum_eq
  have hsum2 : ((sortedByTime posts).map CPost.freshness_score).sum
      = (posts.map CPost.freshness_score).sum :=
    (hperm.map _).sum_eq
  refine ⟨?_, ?_, ?_, ?_⟩
  · intro h
    unfold calculate_trending_score
    rw [if_pos (by omega)]
  · intro h
    unfold calculate_trending_score
    split_ifs <;> rfl
  · intro h2 hspan
    have heq : calculate_trending_score posts =
        min ((posts.map fun p => (p.total_interactions : ℚ)).sum
            / timeSpanHours posts
          * ((posts.map CPost.freshness_score).sum / (posts.length : ℚ)) / 100) 1 := by
      unfold calculate_trending_score
      rw [if_neg (by omega), if_neg (not_le.mpr hspan), hsum1, hsum2, hlen]
    refine ⟨heq, ?_, ?_⟩
    · rw [heq]
      have hti : 0 ≤ (posts.map fun p => (p.total_interactions : ℚ)).sum :=
        List.sum_nonneg (by
          intro x hx
          obtain ⟨p, _, rfl⟩ := List.mem_map.mp hx
          exact Nat.cast_nonneg _)
      have hfs : 0 ≤ (posts.map CPost.freshness_score).sum :=
        List.sum_nonneg (by
          intro x hx
          obtain ⟨p, hp, rfl⟩ := List.mem_map.mp hx
          exact hf p hp)
      have hlenpos : (0 : ℚ) < (posts.length : ℚ) := by
        have : 0 < posts.length := by omega
        exact_mod_cast this
      have hA : 0 ≤ (posts.map fun p => (p.total_interactions : ℚ)).sum
          / timeSpanHours posts := div_nonneg hti hspan.le
      have hB : 0 ≤ (posts.map CPost.freshness_score).sum / (posts.length : ℚ) :=
        div_nonneg hfs hlenpos.le
      exact le_min (by positivity) zero_le_one
    · rw [heq]
      exact min_le_right _ _
  · intro hne
    have hsne : sortedByTime posts ≠ [] := by
      intro h0
      apply hne
      have : posts.length = 0 := by rw [← hlen, h0]; rfl
      exact List.length_eq_zero.mp this
    refine ⟨(sortedByTime posts).head?.getD default,
      hperm.mem_iff.mp (head_getD_mem _ hsne),
      (sortedByTime posts).getLast?.getD default,
      hperm.mem_iff.mp (getLast_getD_mem _ hsne), rfl, ?_⟩
    intro p hp
    have hps : p ∈ sortedByTime posts := hperm.mem_iff.mpr hp
    exact ⟨sorted_head_le _ hsorted p hps, sorted_le_getLast _ hsorted p hps⟩

/-- A concrete two-post cluster with positive time span (C6 witness). -/
def cpA : CPost :=
  { content := "a", total_interactions := 10, heat_density := 0,
    freshness_score := 1, timestamp := 0 }

/-- Second post of the concrete cluster, two hours later. -/
def cpB : CPost :=
  { content := "b", total_interactions := 20, heat_density := 0,
    freshness_score := 1, timestamp := 2 }

lemma sortedByTime_pair : sortedByTime [cpA, cpB] = [cpA, cpB] := by
  unfold sortedByTime
  simp only [List.insertionSort, List.orderedInsert]
  rw [if_pos (by norm_num [timeLe, cpA, cpB])]

lemma timeSpanHours_pair : timeSpanHours [cpA, cpB] = 2 := by
  unfold timeSpanHours
  rw [sortedByTime_pair]
  norm_num [cpA, cpB]

/-- Witness for C6: the two-post cluster `[cpA, cpB]` has non-negative
freshness scores, two posts, positive span, and the trending score takes the
claimed clamped form with its `[0,1]` bounds. -/
theorem trending_score_claim_witness :
    (∀ p ∈ [cpA, cpB], 0 ≤ p.freshness_score)
    ∧ (calculate_trending_score [cpA, cpB] =
        min (([cpA, cpB].map fun p => (p.total_interactions : ℚ)).sum
            / timeSpanHours [cpA, cpB]
          * (([cpA, cpB].map CPost.freshness_score).sum / (([cpA, cpB].length : ℕ) : ℚ))
          / 100) 1
        ∧ 0 ≤ calculate_trending_score [cpA, cpB]
        ∧ calculate_trending_score [cpA, cpB] ≤ 1) := by
  have hf : ∀ p ∈ [cpA, cpB], 0 ≤ p.freshness_score := by simp [cpA, cpB]
  have hspan : 0 < timeSpanHours [cpA, cpB] := by rw [timeSpanHours_pair]; norm_num
  exact ⟨hf, (trending_score_claim [cpA, cpB] hf).2.2.1 (by simp) hspan⟩

/-! ### The clustering pipeline itself

The external capabilities the source calls (jieba's `cut`, scikit-learn's
`TfidfVectorizer.fit_transform`/`get_feature_names_out`, `KMeans` and NLTK's
sentiment analyzer) are bundled as explicit deterministic function
parameters.  `kmeansFit` receives (number of clusters, random seed, number
of restarts, document-term matrix) and returns (per-document labels, cluster
centers); the source pins the seed to the literal 42 (line 455).  The
`ambientSeed` parameter stands for whatever seed the environment would
otherwise supply (`random_state=None`); the embedded pipeline never reads
it, which is exactly the fixed-seed policy of the source. -/

structure TopicSummary where
  topic_id : ℕ
  topic_keywords : List String
  topic_name : String
  post_count : ℕ
  average_heat_density : ℚ
  total_interactions : ℕ
  dominant_sentiment : String
  trending_score : ℚ
deriving DecidableEq

structure ClusterLibs where
  tokenize : String → List String
  vectorize : List String → List String × List (List ℚ)
  kmeansFit : ℕ → ℕ → ℕ → List (List ℚ) → List ℕ × List (List ℚ)
  sentimentAnalyzer : Option (String → ℚ)

/-- Lines 518-521: the four fixed category keyword lists. -/
def techKeywords : List String := ["ai", "人工智慧", "科技", "技術", "軟體", "程式", "數據"]

def financeKeywords : List String := ["投資", "股票", "金融", "經濟", "市場", "價格", "利率"]

def socialKeywords : List String := ["社會", "政治", "新聞", "事件", "討論", "觀點"]

def lifeKeywords : List String := ["生活", "健康", "美食", "旅行", "娛樂", "電影", "音樂"]

/-- Lines 509-532: `_generate_topic_name` (the `contents` argument of the
source is unused there). -/
def generate_topic_name (keywords : List String) : String :=
  match keywords with
  | [] => "未知主題"
  | primary :: _ =>
    if techKeywords.any (fun k => containsSubstr k primary) then
      "科技趨勢 - " ++ primary
    else if financeKeywords.any (fun k => containsSubstr k primary) then
      "財經動態 - " ++ primary
    else if socialKeywords.any (fun k => containsSubstr k primary) then
      "社會議題 - " ++ primary
    else if lifeKeywords.any (fun k => containsSubstr k primary) then
      "生活分享 - " ++ primary
    else "熱門話題 - " ++ primary

/-- Lines 534-559: `_analyze_cluster_sentiment`: neutral without an
analyzer or without usable text; otherwise the mean compound score bucketed
at `±0.1`. -/
def analyzeClusterSentiment (analyzer : Option (String → ℚ))
    (contents : List String) : String :=
  match analyzer with
  | none => "neutral"
  | some f =>
    let scores := (contents.filter fun c => !(c == "") && !(trimStr c == "")).map f
    if scores.isEmpty then "neutral"
    else
      let avg := scores.sum / (scores.length : ℚ)
      if 1/10 < avg then "positive"
      else if avg < -(1/10) then "negative"
      else "neutral"

/-- Ordering of feature indices by centroid weight (`argsort`). -/
def centerLe (center : List ℚ) (i j : ℕ) : Prop := center.getD i 0 ≤ center.getD j 0

instance (center : List ℚ) : DecidableRel (centerLe center) :=
  fun i j => inferInstanceAs (Decidable (center.getD i 0 ≤ center.getD j 0))

/-- Line 471: `cluster_center.argsort()[-10:][::-1]` - the indices of the 10
largest centroid weights, largest first. -/
def topIndices (center : List ℚ) : List ℕ :=
  (((List.range center.length).insertionSort (centerLe center)).drop
    (center.length - 10)).reverse

/-- Lines 432-439: tokenize, strip, drop 1-character tokens and stopwords,
re-join with spaces (the clustering branch applies no digit/regex filter). -/
def processForClustering (tokenize : String → List String) (stop : String → Bool)
    (text : String) : String :=
  String.intercalate " "
    (((tokenize (lowerStr text)).map trimStr).filter fun w =>
      decide (1 < w.length) && !(stop w))

/-- Lines 462-500: the per-cluster analysis of one k-means cluster: clusters
with fewer than 2 posts or without positive-weight keywords are dropped. -/
def buildTopic (analyzer : Option (String → ℚ)) (featureNames : List String)
    (center : List ℚ) (cid : ℕ) (cluster_posts : List CPost) :
    Option TopicSummary :=
  if cluster_posts.length < 2 then none
  else
    let ckws := ((topIndices center).filter fun i => decide (0 < center.getD i 0)).map
      fun i => featureNames.getD i ""
    if ckws.isEmpty then none
    else some {
      topic_id := cid + 1,
      topic_keywords := ckws.take 5,
      topic_name := generate_topic_name ckws,
      post_count := cluster_posts.length,
      average_heat_density :=
        (cluster_posts.map CPost.heat_density).sum / (cluster_posts.length : ℚ),
      total_interactions := (cluster_posts.map CPost.total_interactions).sum,
      dominant_sentiment :=
        analyzeClusterSentiment analyzer (cluster_posts.map CPost.content),
      trending_score := calculate_trending_score cluster_posts }

/-- Lines 406-507: `perform_topic_clustering`.  Batches with fewer than 5
posts, or with fewer than 3 posts passing the interaction threshold, yield
an empty topic list; otherwise the filtered batch is vectorized, k-means is
run with `n_clusters = min(max_topics, max(2, n // 10))`, the literal seed
42 and 10 restarts, and each cluster is summarized. -/
def perform_topic_clustering (libs : ClusterLibs) (stop : String → Bool)
    (min_interactions_threshold max_topics : ℕ) (_ambientSeed : ℕ)
    (df : List CPost) : List TopicSummary :=
  if df.length < 5 then []
  else
    let filtered := df.filter fun p =>
      decide (min_interactions_threshold ≤ p.total_interactions)
    if filtered.length < 3 then []
    else
      let processed :=
        (filtered.map CPost.content).map (processForClustering libs.tokenize stop)
      let vecOut := libs.vectorize processed
      let n_clusters := min max_topics (max 2 (filtered.length / 10))
      let fitOut := libs.kmeansFit n_clusters 42 10 vecOut.2
      (List.range n_clusters).filterMap fun cid =>
        buildTopic libs.sentimentAnalyzer vecOut.1 (fitOut.2.getD cid []) cid
          (((filtered.zip fitOut.1).filter fun pl => pl.2 == cid).map Prod.fst)

/-- C4: with the k-means seed pinned to 42 the clustering run does not
depend on the ambient random seed: two runs on the same input batch (with
the same deterministic external components) produce the same topic list,
in the same order, and in particular the same cluster assignments, since
both runs call `kmeansFit` with the identical argument tuple.  All other
steps of the embedded pipeline are pure functions, so determinism holds by
computation. -/
theorem clustering_deterministic_claim (libs : ClusterLibs) (stop : String → Bool)
    (thr mt : ℕ) (s1 s2 : ℕ) (df : List CPost) :
    perform_topic_clustering libs stop thr mt s1 df
      = perform_topic_clustering libs stop thr mt s2 df := rfl

/-- C5: the clusterer returns an empty topic list (and, being a total
function, raises nothing) whenever the batch has fewer than 5 posts or
fewer than 3 posts survive the `total_interactions ≥ threshold` filter. -/
theorem clustering_insufficient_data_claim (libs : ClusterLibs)
    (stop : String → Bool) (thr mt seed : ℕ) (df : List CPost)
    (h : df.length < 5
      ∨ (df.filter fun p => decide (thr ≤ p.total_interactions)).length < 3) :
    perform_topic_clustering libs stop thr mt seed df = [] := by
  unfold perform_topic_clustering
  rcases h with h | h
  · rw [if_pos h]
  · by_cases h1 : df.length < 5
    · rw [if_pos h1]
    · rw [if_neg h1]
      simp [h]

/-- Trivial external components for the C5 witness. -/
def libs0 : ClusterLibs :=
  { tokenize := fun _ => [], vectorize := fun _ => ([], []),
    kmeansFit := fun _ _ _ _ => ([], []), sentimentAnalyzer := none }

/-- A four-post batch (below the 5-post minimum). -/
def dfSmall : List CPost :=
  [{ content := "a", total_interactions := 10, heat_density := 0,
     freshness_score := 1, timestamp := 0 },
   { content := "b", total_interactions := 10, heat_density := 0,
     freshness_score := 1, timestamp := 1 },
   { content := "c", total_interactions := 10, heat_density := 0,
     freshness_score := 1, timestamp := 2 },
   { content := "d", total_interactions := 10, heat_density := 0,
     freshness_score := 1, timestamp := 3 }]

/-- Witness for C5: the four-post batch is below the size guard and the
clusterer returns the empty topic list on it. -/
theorem clustering_insufficient_data_claim_witness :
    (dfSmall.length < 5
      ∨ (dfSmall.filter fun p => decide (5 ≤ p.total_interactions)).length < 3)
    ∧ perform_topic_clustering libs0 (fun _ => false) 5 20 0 dfSmall = [] :=
  ⟨Or.inl (by decide),
    clustering_insufficient_data_claim libs0 (fun _ => false) 5 20 0 dfSmall
      (Or.inl (by decide))⟩

/-! ## Keyword extraction (`extract_keywords`, lines 343-404) -/

/-- Python `str.isdigit()` on a stripped token: non-empty and all digits. -/
def isDigitWord (w : String) : Bool := !w.data.isEmpty && w.data.all Char.isDigit

/-- The regex `^[a-zA-Z一-鿿]+$` of line 373. -/
def isWordToken (w : String) : Bool :=
  !w.data.isEmpty && w.data.all fun c =>
    (decide ('a' ≤ c) && decide (c ≤ 'z')) || (decide ('A' ≤ c) && decide (c ≤ 'Z'))
      || (decide (0x4e00 ≤ c.toNat) && decide (c.toNat ≤ 0x9fff))

/-- Lines 365-374: lower-case, segment, strip, and keep tokens that are
longer than one character, not stopwords, not purely numeric and made of
word characters only. -/
def keywordFilterTokens (tokenize : String → List String) (stop : String → Bool)
    (text : String) : List String :=
  ((tokenize (lowerStr text)).map trimStr).filter fun w =>
    decide (1 < w.length) && !(stop w) && !(isDigitWord w) && isWordToken w

/-- Lines 359-377: the processed corpus - whitespace-joined filtered tokens
of every text that is neither blank nor filtered to nothing. -/
def processedTexts (tokenize : String → List String) (stop : String → Bool)
    (texts : List String) : List String :=
  (texts.filter fun t => !(trimStr t == "")).filterMap fun t =>
    let ws := keywordFilterTokens tokenize stop t
    if ws.isEmpty then none else some (String.intercalate " " ws)

/-- Line 394: `np.mean(tfidf_matrix.toarray(), axis=0)` for one column. -/
def colMean (matrix : List (List ℚ)) (i : ℕ) : ℚ :=
  (matrix.map fun row => row.getD i 0).sum / (matrix.length : ℚ)

/-- The ordering used by line 398, `sort(key=..., reverse=True)`:
descending weight. -/
def weightDesc (a b : String × ℚ) : Prop := b.2 ≤ a.2

instance : DecidableRel weightDesc := fun a b => inferInstanceAs (Decidable (b.2 ≤ a.2))

instance : IsTotal (String × ℚ) weightDesc := ⟨fun a b => le_total b.2 a.2⟩

instance : IsTrans (String × ℚ) weightDesc := ⟨fun _ _ _ h1 h2 => le_trans h2 h1⟩

/-- Lines 343-404: `extract_keywords`.  The external TF-IDF vectorizer
enters as the parameter `vectorize`, returning the enumerated feature names
(`get_feature_names_out`) together with the document-term matrix; the source
then zips features with their column means, sorts by descending weight with
Python's stable sort, and keeps the first 50 pairs.  Empty input, or input
whose every document is filtered away, short-circuits to `[]`. -/
def extract_keywords (tokenize : String → List String) (stop : String → Bool)
    (vectorize : List String → List String × List (List ℚ))
    (texts : List String) : List (String × ℚ) :=
  if texts.isEmpty then []
  else
    let processed := processedTexts tokenize stop texts
    if processed.isEmpty then []
    else
      let vecOut := vectorize processed
      let pairs := vecOut.1.zip ((List.range vecOut.1.length).map (colMean vecOut.2))
      (pairs.insertionSort weightDesc).take 50

/-- Stability of one insertion step: the elements of any fixed weight class
appear in `orderedInsert weightDesc a s` in the same order as in `a :: s`. -/
lemma filter_orderedInsert (w : ℚ) (a : String × ℚ) (s : List (String × ℚ)) :
    (List.orderedInsert weightDesc a s).filter (fun p => decide (p.2 = w))
      = (a :: s).filter fun p => decide (p.2 = w) := by
  induction s with
  | nil => rfl
  | cons b t ih =>
    by_cases hab : weightDesc a b
    · rw [List.orderedInsert, if_pos hab]
    · rw [List.orderedInsert, if_neg hab]
      have hlt : a.2 < b.2 := not_le.mp hab
      simp only [List.filter_cons, ih]
      by_cases hpa : a.2 = w
      · have hpb : ¬ b.2 = w := by
          intro hb
          rw [hpa] at hlt
          rw [hb] at hlt
          exact lt_irrefl w hlt
        simp [hpa, hpb]
      · simp [hpa]

/-- Stability of the whole sort: Python's `sort` is stable, and so is
`insertionSort`: each weight class keeps the original (feature-enumeration)
order. -/
lemma filter_insertionSort_stable (w : ℚ) (l : List (String × ℚ)) :
    (l.insertionSort weightDesc).filter (fun p => decide (p.2 = w))
      = l.filter fun p => decide (p.2 = w) := by
  induction l with
  | nil => rfl
  | cons a t ih =>
    rw [List.insertionSort, filter_orderedInsert, List.filter_cons, List.filter_cons, ih]

/-- C8 (amended): `extract_keywords` returns at most 50 term-weight pairs,
sorted by descending weight; ties are broken by the order in which the
vectorizer enumerates its features (for the TF-IDF vectorizer of the source
this is the sorted vocabulary, not first-seen order): within every weight
class the sorted pair list keeps the feature-enumeration order.  Empty
input, or input in which every document is filtered to nothing, yields `[]`
(the embedding is a total function, so nothing is raised). -/
theorem extract_keywords_claim (tokenize : String → List String)
    (stop : String → Bool)
    (vectorize : List String → List String × List (List ℚ))
    (texts : List String) :
    (extract_keywords tokenize stop vectorize texts).length ≤ 50
    ∧ List.Sorted weightDesc (extract_keywords tokenize stop vectorize texts)
    ∧ (texts.isEmpty = true → extract_keywords tokenize stop vectorize texts = [])
    ∧ ((processedTexts tokenize stop texts).isEmpty = true →
        extract_keywords tokenize stop vectorize texts = [])
    ∧ (∀ w : ℚ,
        (((vectorize (processedTexts tokenize stop texts)).1.zip
            ((List.range (vectorize (processedTexts tokenize stop texts)).1.length).map
              (colMean (vectorize (processedTexts tokenize stop texts)).2))).insertionSort
          weightDesc).filter (fun p => decide (p.2 = w))
        = ((vectorize (processedTexts tokenize stop texts)).1.zip
            ((List.range (vectorize (processedTexts tokenize stop texts)).1.length).map
              (colMean (vectorize (processedTexts tokenize stop texts)).2))).filter
            fun p => decide (p.2 = w)) := by
  refine ⟨?_, ?_, ?_, ?_, ?_⟩
  · unfold extract_keywords
    cases h1 : texts.isEmpty with
    | true => simp [h1]
    | false =>
      simp only [h1, Bool.false_eq_true, if_false]
      cases h2 : (processedTexts tokenize stop texts).isEmpty with
      | true => simp [h2]
      | false =>
        simp only [h2, Bool.false_eq_true, if_false]
        exact List.length_take_le 50 _
  · unfold extract_keywords
    cases h1 : texts.isEmpty with
    | true => simp only [h1, if_true]; exact List.sorted_nil
    | false =>
      simp only [h1, Bool.false_eq_true, if_false]
      cases h2 : (processedTexts tokenize stop texts).isEmpty with
      | true => simp only [h2, if_true]; exact List.sorted_nil
      | false =>
        simp only [h2, Bool.false_eq_true, if_false]
        exact List.Pairwise.sublist (List.take_sublist 50 _)
          (List.sorted_insertionSort weightDesc _)
  · intro h
    unfold extract_keywords
    rw [if_pos h]
  · intro h
    unfold extract_keywords
    cases h1 : texts.isEmpty with
    | true => simp [h1]
    | false =>
      simp only [h1, Bool.false_eq_true, if_false]
      simp [h]
  · intro w
    exact filter_insertionSort_stable w _

/-- Witness for C8 at the empty corpus. -/
theorem extract_keywords_claim_witness :
    (([] : List String).isEmpty = true)
    ∧ extract_keywords (fun s => [s]) (fun _ => false) (fun _ => ([], [])) [] = [] :=
  ⟨rfl, (extract_keywords_claim (fun s => [s]) (fun _ => false)
    (fun _ => ([], [])) []).2.2.1 rfl⟩

/-- The concrete corpus for the tie-order counterexample: in every document
the term `bb` is seen before the term `aa`. -/
def exTexts : List String := ["bb aa", "bb aa", "bb aa", "zz yy", "zz xx"]

/-- Modelled from the spec: §4.2 delegates tokenization to the external
segmenter (jieba `cut`), which on these purely Latin, space-separated
documents yields the space-separated words; this table records its output
on the three distinct documents of `exTexts`. -/
def exTok (s : String) : List String :=
  if s == "bb aa" then ["bb", "aa"]
  else if s == "zz yy" then ["zz", "yy"]
  else if s == "zz xx" then ["zz", "xx"]
  else []

/-- Empty stopword predicate for the counterexample (none of the tokens of
`exTexts` is a stopword of the source's stopword set). -/
def exStop (_ : String) : Bool := false

/-- Modelled from the spec: §4.2 delegates vectorization to the external
TF-IDF vectorizer (scikit-learn `TfidfVectorizer` with `min_df = 3`,
`max_df = 0.8`, n-grams (1,2)), whose `get_feature_names_out` enumerates the
fitted vocabulary in sorted (alphabetical) order - not in first-seen order.
On the five processed documents of `exTexts` the surviving vocabulary is
`aa`, `bb` and the bigram `bb aa` (each occurring in documents 1-3, so
document frequency 3 of 5 = 0.6 ≤ 0.8); each of the three features has the
same weight in every document that contains it, which this model takes to
be 1 - only the resulting tie and the enumeration order matter here. -/
def exVectorize (_ : List String) : List String × List (List ℚ) :=
  (["aa", "bb", "bb aa"],
    [[1, 1, 1], [1, 1, 1], [1, 1, 1], [0, 0, 0], [0, 0, 0]])

lemma exProcessed : processedTexts exTok exStop exTexts
    = ["bb aa", "bb aa", "bb aa", "zz yy", "zz xx"] := by decide

lemma exColMean0 :
    colMean [[1, 1, 1], [1, 1, 1], [1, 1, 1], [0, 0, 0], [0, 0, 0]] 0 = 3/5 := by
  norm_num [colMean]

lemma exColMean1 :
    colMean [[1, 1, 1], [1, 1, 1], [1, 1, 1], [0, 0, 0], [0, 0, 0]] 1 = 3/5 := by
  norm_num [colMean]

lemma exColMean2 :
    colMean [[1, 1, 1], [1, 1, 1], [1, 1, 1], [0, 0, 0], [0, 0, 0]] 2 = 3/5 := by
  norm_num [colMean]

lemma exKeywords : extract_keywords exTok exStop exVectorize exTexts
    = [("aa", 3/5), ("bb", 3/5), ("bb aa", 3/5)] := by
  have hww : ∀ s t : String, weightDesc (s, (3 : ℚ)/5) (t, (3 : ℚ)/5) :=
    fun _ _ => le_refl _
  unfold extract_keywords
  rw [exProcessed]
  simp only [List.isEmpty_cons, Bool.false_eq_true, if_false, exVectorize]
  norm_num [List.range_succ, exColMean0, exColMean1, exColMean2,
    List.insertionSort, List.orderedInsert, hww]
  simp [exTexts]

/-- Counterexample to C8 as stated: on `exTexts` all three extracted terms
carry the same weight (a three-way tie), `bb` is first-seen before `aa` in
every document of the corpus, yet the extractor returns `aa` first - the tie
is broken by the vectorizer's sorted feature enumeration, not by first-seen
term order. -/
theorem extract_keywords_tie_order_counterexample :
    (extract_keywords exTok exStop exVectorize exTexts).map Prod.fst
        = ["aa", "bb", "bb aa"]
    ∧ (∀ p ∈ extract_keywords exTok exStop exVectorize exTexts, p.2 = 3/5)
    ∧ (processedTexts exTok exStop exTexts).head?.getD "" = "bb aa"
    ∧ (extract_keywords exTok exStop exVectorize exTexts).map Prod.fst
        ≠ ["bb", "aa", "bb aa"] := by
  refine ⟨?_, ?_, ?_, ?_⟩
  · rw [exKeywords]
    rfl
  · rw [exKeywords]
    intro p hp
    rcases List.mem_cons.mp hp with rfl | hp2
    · rfl
    · rcases List.mem_cons.mp hp2 with rfl | hp3
      · rfl
      · rw [List.mem_singleton.mp hp3]
  · rw [exProcessed]
    rfl
  · rw [exKeywords]
    decide
